import Mathlib

/-!
Verification of the tinkerbell/dhcp netboot decision engine, packet
classifier, reply construction and dispatcher against their Go sources.

The Go sources are shallowly embedded: pure functions become Lean
functions, Go strings become `List Char` (so that every definition
evaluates by kernel reduction), byte slices become `List Nat`,
`*url.URL` values become `Option URL` (with `none` modelling a nil
pointer), and a Go runtime panic (nil-pointer dereference) is modelled
by an `Option.none` result of the embedded function.
-/

namespace DhcpProof

/-! ## Bytes, strings, IPs and small Go stdlib models -/

/-- A byte; MAC addresses, IPs and option payloads are lists of bytes. -/
abbrev Byte := Nat

/-- A Go string, as a list of characters. -/
abbrev Str := List Char

/-- Coerce a Lean string literal to the `Str` model. -/
def str (s : String) : Str := s.data

/-- Model of Go `net.IP`: a byte slice; `[]` models a nil `net.IP`. -/
abbrev IP := List Byte

/-- `strings.Split(s, sep)` for a one-character separator, as used by
this code base (`strings.Split(host, ":")`). -/
def splitOnChar (c : Char) : Str → List Str
  | [] => [[]]
  | x :: xs =>
      let rest := splitOnChar c xs
      if x = c then [] :: rest
      else match rest with
           | [] => [[x]]
           | r :: rs => (x :: r) :: rs

/-- `strings.Split(s, ":")[0]`. -/
def firstColonField (s : Str) : Str :=
  (splitOnChar ':' s).headD []

/-- Numeric value of a decimal digit character. -/
def digitVal (c : Char) : Nat := c.toNat - 48

/-- Value of a string of decimal digits. -/
def digitsToNat (s : Str) : Nat := s.foldl (fun acc c => acc * 10 + digitVal c) 0

/-- Model of one field of a dotted-quad IPv4 address, per Go
`net.ParseIP`'s field parser: 1 to 3 decimal digits, value at most 255,
no leading zero. -/
def parseIPv4Field (s : Str) : Option Byte :=
  if s.length = 0 || s.length > 3 then none
  else if !(s.all Char.isDigit) then none
  else if s.length > 1 && s.headD ' ' = '0' then none
  else let n := digitsToNat s
       if n ≤ 255 then some n else none

/-- Model of Go `net.ParseIP` restricted to dotted-quad IPv4 forms.
In this code base every string handed to `net.ParseIP` has first been
split on `":"` and is therefore colon-free, and the only colon-free
strings `net.ParseIP` accepts are dotted quads, so the restriction is
faithful on all reachable inputs. -/
def parseIP (s : Str) : Option IP :=
  match (splitOnChar '.' s).mapM parseIPv4Field with
  | some fields => if fields.length = 4 then some fields else none
  | none => none

/-- Model of `net.IP.IsUnspecified` on the 4-byte addresses this
development constructs. -/
def ipIsUnspecified (ip : IP) : Bool := ip == [0, 0, 0, 0]

/-- Model of `net/url.URL` as seen by this code base: only `u.Host` and
the rendering `u.String()` are consulted, so a URL is the pair of
those two projections. -/
structure URL where
  host : Str
  render : Str
deriving DecidableEq, Repr

/-- Model of `netip.AddrPort` (and of `netaddr.IPPort`): `addr = none`
models the invalid/zero address, whose `AsSlice`/`UDPAddr().IP` is nil. -/
structure AddrPort where
  addr : Option IP
  port : Nat
deriving DecidableEq, Repr

/-- `tftp.Addr().AsSlice()` / `tftp.UDPAddr().IP`: nil for the invalid
address, the address bytes otherwise. -/
def addrPortIP (ap : AddrPort) : IP :=
  match ap.addr with
  | none => []
  | some a => a

/-- Decimal rendering of a natural number. -/
def natToStr (n : Nat) : Str := Nat.toDigits 10 n

/-- Dotted rendering of an IP, used by `AddrPort` rendering. -/
def ipDotted (a : IP) : Str :=
  List.intercalate (str ".") (a.map natToStr)

/-- Model of `netip.AddrPort.String()` / `netaddr.IPPort.String()`. -/
def addrPortString (ap : AddrPort) : Str :=
  match ap.addr with
  | none => str "invalid AddrPort"
  | some a => ipDotted a ++ str ":" ++ natToStr ap.port

/-! ## netboot.BootfileAndNextServer (src/netboot/netboot.go:128-166)

Inputs `ipxe` and `iscript` are `Option URL` (`none` = nil pointer);
`tp` models `otelhelpers.TraceparentStringFromContext(ctx)` with `[]`
for an absent traceparent.  The result is `none` exactly where the Go
code dereferences a nil `*url.URL` and panics. -/

/-- The guard of the first `switch` case: `pktUserClass == Tinkerbell`
or a non-empty custom user class matches. -/
def tinkerbellGuard (pktUserClass customUserClass : Str) : Bool :=
  pktUserClass == str "Tinkerbell" ||
    (!customUserClass.isEmpty && pktUserClass == customUserClass)

def BootfileAndNextServer (pktUserClass customUserClass opt60 bin : Str)
    (tftp : AddrPort) (ipxe iscript : Option URL)
    (otelEnabled : Bool) (tp : Str) : Option (Str × IP) :=
  let bin := if otelEnabled && !tp.isEmpty then bin ++ str "-" ++ tp else bin
  let nextServer := addrPortIP tftp
  if tinkerbellGuard pktUserClass customUserClass then
    let bootfile := match iscript with
      | none => str "/no-ipxe-script-defined"
      | some u => u.render
    if nextServer.isEmpty || ipIsUnspecified nextServer then
      match iscript with
      | none => none
      | some u =>
          let ihost := firstColonField u.host
          some (bootfile, (parseIP ihost).getD [127, 0, 0, 1])
    else
      some (bootfile, nextServer)
  else if opt60 == str "HTTPClient" then
    match ipxe with
    | none => none
    | some u =>
        let bootfile := u.render ++ str "/" ++ bin
        let ihost := firstColonField u.host
        some (bootfile, (parseIP ihost).getD [0, 0, 0, 0])
  else if pktUserClass == str "iPXE" then
    some (str "tftp://" ++ addrPortString tftp ++ str "/" ++ bin, nextServer)
  else
    some (bin, nextServer)

/-- The Tinkerbell/custom-branch bootfile as the spec words it:
`script_url` if set, else the diagnostic fallback. -/
def tinkerbellBootfileSpec (iscript : Option URL) : Str :=
  match iscript with
  | none => str "/no-ipxe-script-defined"
  | some u => u.render

/-- The Tinkerbell/custom-branch next server as the spec words it: the
initial (tftp) address if specified, otherwise the parsed host of the
script URL with 127.0.0.1 as fallback. -/
def tinkerbellNextServerSpec (tftp : AddrPort) (iscript : Option URL) : IP :=
  let ns := addrPortIP tftp
  if ns.isEmpty || ipIsUnspecified ns then
    match iscript with
    | none => []
    | some u => (parseIP (firstColonField u.host)).getD [127, 0, 0, 1]
  else ns

/-! ## Claims C1, C4, C10 about BootfileAndNextServer -/

/-- Where the code panics: the Tinkerbell/custom branch dereferences a
nil `iscript` when the initial next server is empty or unspecified, and
the HTTPClient branch dereferences a nil `ipxe`. -/
def bootfilePanics (pktUserClass customUserClass opt60 : Str) (tftp : AddrPort)
    (ipxe iscript : Option URL) : Bool :=
  if tinkerbellGuard pktUserClass customUserClass then
    iscript.isNone && ((addrPortIP tftp).isEmpty || ipIsUnspecified (addrPortIP tftp))
  else if opt60 == str "HTTPClient" then ipxe.isNone
  else false

/-- C1 (counterexample): at user class `Tinkerbell` with no script URL
and an unspecified tftp address, `BootfileAndNextServer` does not
return the claimed bootfile `/no-ipxe-script-defined` (or anything at
all): the Go code dereferences the nil script URL and panics, modelled
here by a `none` result. -/
theorem C1_tinkerbell_nil_script_unspecified_panics :
    BootfileAndNextServer (str "Tinkerbell") [] [] (str "snp.efi")
      ⟨none, 0⟩ none none false [] = none := by rfl

/-- C1 (amended): whenever the packet user class is `Tinkerbell`, or the
custom user class is non-empty and matches, and additionally the script
URL is set or the initial next server (the tftp address) is a specified
non-zero address, the resolution returns bootfile `script_url` if set
(else `/no-ipxe-script-defined`) and, when the initial next server is
empty or unspecified, the next server parsed from the script URL host
with fallback `127.0.0.1`, else the initial next server.  The branch
applies for every `opt60`, so it takes priority over the HTTPClient,
iPXE and default branches. -/
theorem C1_tinkerbell_branch (pktUserClass customUserClass opt60 bin : Str)
    (tftp : AddrPort) (ipxe iscript : Option URL) (otelEnabled : Bool) (tp : Str)
    (hguard : tinkerbellGuard pktUserClass customUserClass = true)
    (hsafe : iscript ≠ none ∨
      ((addrPortIP tftp).isEmpty || ipIsUnspecified (addrPortIP tftp)) = false) :
    BootfileAndNextServer pktUserClass customUserClass opt60 bin tftp ipxe iscript
        otelEnabled tp =
      some (tinkerbellBootfileSpec iscript, tinkerbellNextServerSpec tftp iscript) := by
  unfold BootfileAndNextServer tinkerbellBootfileSpec tinkerbellNextServerSpec
  simp only [hguard, if_true]
  by_cases h : ((addrPortIP tftp).isEmpty || ipIsUnspecified (addrPortIP tftp)) = true
  · simp only [h, if_true]
    cases iscript with
    | none =>
        rcases hsafe with h1 | h2
        · exact absurd rfl h1
        · rw [h] at h2; cases h2
    | some u => rfl
  · simp only [Bool.not_eq_true] at h
    simp only [h, Bool.false_eq_true, if_false]

/-- Witness for `C1_tinkerbell_branch` at the repository's own test
vector: user class `Tinkerbell`, script URL
`http://localhost:8080/auto.ipxe`, zero tftp address; the result is the
script URL and `127.0.0.1` (the host `localhost` does not parse). -/
theorem C1_tinkerbell_branch_witness :
    BootfileAndNextServer (str "Tinkerbell") [] [] [] ⟨none, 0⟩ none
      (some ⟨str "localhost:8080", str "http://localhost:8080/auto.ipxe"⟩) false [] =
      some (str "http://localhost:8080/auto.ipxe", [127, 0, 0, 1]) := by
  rw [C1_tinkerbell_branch (str "Tinkerbell") [] [] [] ⟨none, 0⟩ none
      (some ⟨str "localhost:8080", str "http://localhost:8080/auto.ipxe"⟩) false []
      (by decide) (Or.inl (by decide))]
  rfl

/-- C4 (confirmed): outside the Tinkerbell/custom branch, with client
type `HTTPClient`, the bootfile is the rendered http URL, `/`, and the
architecture binary name (suffixed with the traceparent when OTEL is
enabled, per step 1 of the resolution), and the next server is the IP
parsed from the host portion of the http URL, with `0.0.0.0` as the
fallback when that host does not parse as an IP. -/
theorem C4_httpclient_branch (pktUserClass customUserClass opt60 bin : Str)
    (tftp : AddrPort) (u : URL) (iscript : Option URL) (otelEnabled : Bool) (tp : Str)
    (hguard : tinkerbellGuard pktUserClass customUserClass = false)
    (h60 : opt60 = str "HTTPClient") :
    BootfileAndNextServer pktUserClass customUserClass opt60 bin tftp (some u) iscript
        otelEnabled tp =
      some (u.render ++ str "/" ++
              (if otelEnabled && !tp.isEmpty then bin ++ str "-" ++ tp else bin),
            (parseIP (firstColonField u.host)).getD [0, 0, 0, 0]) := by
  subst h60
  unfold BootfileAndNextServer
  simp [hguard]

/-- Witness for `C4_httpclient_branch` at the repository's own test
vector: http URL `http://localhost:8181`, binary `snp.ipxe`; the result
is `http://localhost:8181/snp.ipxe` with next server `0.0.0.0`. -/
theorem C4_httpclient_branch_witness :
    BootfileAndNextServer [] [] (str "HTTPClient") (str "snp.ipxe") ⟨none, 0⟩
      (some ⟨str "localhost:8181", str "http://localhost:8181"⟩) none false [] =
      some (str "http://localhost:8181/snp.ipxe", [0, 0, 0, 0]) := by
  rw [C4_httpclient_branch [] [] (str "HTTPClient") (str "snp.ipxe") ⟨none, 0⟩
      ⟨str "localhost:8181", str "http://localhost:8181"⟩ none false []
      (by decide) rfl]
  rfl

/-- C10 (counterexample): the resolution is not total.  With a custom
user class match, a nil script URL and tftp address `0.0.0.0`, the Go
code dereferences the nil script URL and panics instead of returning a
pair. -/
theorem C10_not_total_counterexample :
    BootfileAndNextServer (str "custom") (str "custom") [] (str "ipxe.efi")
      ⟨some [0, 0, 0, 0], 69⟩ none none false [] = none := by rfl

/-- C10 (amended): the resolution returns a pair exactly when it does
not hit a nil-URL dereference, i.e. except when the Tinkerbell/custom
branch runs with a nil script URL and an empty or unspecified initial
next server, or the HTTPClient branch runs with a nil http URL; and
with a nil script URL but a specified tftp address the Tinkerbell
branch does return bootfile `/no-ipxe-script-defined`. -/
theorem C10_totality_characterized :
    (∀ (pktUserClass customUserClass opt60 bin : Str) (tftp : AddrPort)
        (ipxe iscript : Option URL) (otelEnabled : Bool) (tp : Str),
      (BootfileAndNextServer pktUserClass customUserClass opt60 bin tftp ipxe iscript
          otelEnabled tp).isSome =
        !(bootfilePanics pktUserClass customUserClass opt60 tftp ipxe iscript)) ∧
    BootfileAndNextServer (str "Tinkerbell") [] [] (str "snp.efi")
        ⟨some [192, 168, 6, 5], 69⟩ none none false [] =
      some (str "/no-ipxe-script-defined", [192, 168, 6, 5]) := by
  constructor
  · intro pktUserClass customUserClass opt60 bin tftp ipxe iscript otelEnabled tp
    unfold BootfileAndNextServer bootfilePanics
    by_cases hg : tinkerbellGuard pktUserClass customUserClass = true
    · simp only [hg, if_true]
      by_cases h : ((addrPortIP tftp).isEmpty || ipIsUnspecified (addrPortIP tftp)) = true
      · cases iscript <;> simp [h]
      · simp only [Bool.not_eq_true] at h
        cases iscript <;> simp [h]
    · simp only [Bool.not_eq_true] at hg
      simp only [hg, Bool.false_eq_true, if_false]
      by_cases h60 : (opt60 == str "HTTPClient") = true
      · cases ipxe <;> simp [h60]
      · simp only [Bool.not_eq_true] at h60
        by_cases hip : (pktUserClass == str "iPXE") = true <;> simp [h60, hip]
  · rfl

/-! ## Claim C2: the netboot-client classifier
(src/netboot/netboot.go:177-221 `IsNetbootClient`, identical logic in
src/handler/proxy/proxy.go:238-282) -/

/-- DHCP message type, as decoded from option 53; `noneType` models an
absent option 53 and `other` any unnamed type. -/
inductive MessageType
  | discover | offer | request | decline | ack | nak | release | inform | noneType | other
deriving DecidableEq, Repr

/-- The projections of a received `dhcpv4.DHCPv4` packet this code base
consults.  `opt60`/`opt77` are option values as strings (`none` =
option absent), `opt93` is the list of decoded architecture codes
(`ClientArch()`), `opt94`/`opt97` are raw byte payloads. -/
structure Packet where
  messageType : MessageType
  mac : List Byte
  opt60 : Option Str
  opt77 : Option Str
  opt93 : Option (List Nat)
  opt94 : Option (List Byte)
  opt97 : Option (List Byte)
deriving DecidableEq, Repr

/-- `pkt.ClassIdentifier()`: the option 60 value, `""` when absent. -/
def classIdentifier (pkt : Packet) : Str := pkt.opt60.getD []

/-- `pkt.GetOneOption(97)`: nil (empty) when absent. -/
def getOpt97 (pkt : Packet) : List Byte := pkt.opt97.getD []

/-- netboot.IsNetbootClient: `none` means no error (a valid netboot
client), `some msg` the diagnostic error.  Mirrors the Go check chain:
message type, option 60 presence, option 60 value, options 93 and 94
presence, option 97 length. -/
def IsNetbootClient (pkt : Packet) : Option Str :=
  if !(pkt.messageType == .discover) && !(pkt.messageType == .request) then
    some (str "message type must be either Discover or Request")
  else if pkt.opt60.isNone then some (str "option 60 not set")
  else
    let opt60 := classIdentifier pkt
    if !(List.isPrefixOf (str "PXEClient") opt60) &&
       !(List.isPrefixOf (str "HTTPClient") opt60) then
      some (str "option 60 must start with PXEClient or HTTPClient")
    else if pkt.opt93.isNone then some (str "option 93 not set")
    else if pkt.opt94.isNone then some (str "option 94 not set")
    else
      let guid := getOpt97 pkt
      if guid.length == 0 then none
      else if guid.length == 17 then
        if !(guid.headD 0 == 0) then some (str "option 97 does not start with 0")
        else none
      else some (str "option 97 has invalid length (must be 0 or 17)")

/-- The claim's acceptance condition, written from the spec's words:
DISCOVER or REQUEST, option 60 present with a PXEClient/HTTPClient
prefix, options 93 and 94 present, option 97 of length 0 or of length
17 with leading byte 0. -/
def isNetbootClientSpec (pkt : Packet) : Bool :=
  (pkt.messageType == .discover || pkt.messageType == .request) &&
  (match pkt.opt60 with
   | none => false
   | some v => List.isPrefixOf (str "PXEClient") v || List.isPrefixOf (str "HTTPClient") v) &&
  pkt.opt93.isSome && pkt.opt94.isSome &&
  ((pkt.opt97.getD []).length == 0 ||
   ((pkt.opt97.getD []).length == 17 && (pkt.opt97.getD []).headD 0 == 0))

/-- The classifier succeeds exactly on the spec's acceptance condition. -/
theorem isNetbootClient_isNone_eq (pkt : Packet) :
    (IsNetbootClient pkt).isNone = isNetbootClientSpec pkt := by
  rcases pkt with ⟨mt, mac, o60, o77, o93, o94, o97⟩
  cases o60 <;> cases o93 <;> cases o94 <;>
    simp only [IsNetbootClient, isNetbootClientSpec, classIdentifier, getOpt97] <;>
    cases mt <;> simp_all [Bool.eq_false_iff, List.isPrefixOf_iff_prefix] <;>
    by_cases hp : str "PXEClient" <+: ‹Str› <;>
    by_cases hq : str "HTTPClient" <+: ‹Str› <;>
    by_cases hz : ((o97.getD []).length == 0) = true <;>
    by_cases h17 : ((o97.getD []).length == 17) = true <;>
    by_cases hh : ((o97.getD []).headD 0 == 0) = true <;>
    simp_all [Bool.eq_false_iff, List.isPrefixOf_iff_prefix]

/-- C2 (confirmed): the classifier returns no error iff the message
type is DISCOVER or REQUEST, option 60 is present and begins with
`PXEClient` or `HTTPClient`, options 93 and 94 are present, and option
97 has length 0 or length 17 with first byte 0; in every other case it
returns a (diagnostic) error. -/
theorem C2_isNetbootClient_no_error_iff (pkt : Packet) :
    IsNetbootClient pkt = none ↔
      ((pkt.messageType = .discover ∨ pkt.messageType = .request) ∧
       (∃ v, pkt.opt60 = some v ∧ (str "PXEClient" <+: v ∨ str "HTTPClient" <+: v)) ∧
       pkt.opt93.isSome = true ∧ pkt.opt94.isSome = true ∧
       ((getOpt97 pkt).length = 0 ∨
        ((getOpt97 pkt).length = 17 ∧ (getOpt97 pkt).headD 0 = 0))) := by
  rw [← Option.isNone_iff_eq_none, isNetbootClient_isNone_eq]
  rcases pkt with ⟨mt, mac, o60, o77, o93, o94, o97⟩
  cases o60 <;>
    simp [isNetbootClientSpec, getOpt97, List.isPrefixOf_iff_prefix, and_assoc]

/-! ## Claim C9: the traceparent encoder
(src/netboot/netboot.go:261-280 and src/unnamed/part_009:275-294
`TraceparentFromContext`) -/

/-- otel/netboot `TraceparentFromContext`: version byte `0x00`, the 16
trace-id bytes, the 8 span-id bytes, and one flags byte, `0x01` when
the span context is sampled and `0x00` otherwise.  The span context's
trace id and span id (`[16]byte` and `[8]byte` in Go) are passed as
byte lists. -/
def TraceparentFromContext (tid sid : List Byte) (sampled : Bool) : List Byte :=
  [0x00] ++ tid ++ sid ++ [if sampled then 0x01 else 0x00]

/-- Decoder for the claimed 26-byte layout
`0x00 | trace_id[16] | span_id[8] | flags[1]`, written from the spec's
words: checks the length and version byte, slices the ids, and reads
the sampled bit from the flags byte. -/
def traceparentDecode (b : List Byte) : Option (List Byte × List Byte × Bool) :=
  if b.length = 26 ∧ b.headD 1 = 0 then
    some (b.tail.take 16, (b.tail.drop 16).take 8, (b.tail.drop 24).headD 0 == 1)
  else none

/-- C9 (confirmed): for every 16-byte trace id, 8-byte span id and
sampled flag, the encoder emits exactly 26 bytes in the layout
`0x00 | tid | sid | flags` with flags `0x01` iff sampled, and decoding
those bytes by that layout recovers the same trace id, span id and
sampled flag. -/
theorem C9_traceparent_roundtrip (tid sid : List Byte) (sampled : Bool)
    (h16 : tid.length = 16) (h8 : sid.length = 8) :
    (TraceparentFromContext tid sid sampled).length = 26 ∧
    TraceparentFromContext tid sid sampled =
      [0] ++ tid ++ sid ++ [if sampled then 1 else 0] ∧
    traceparentDecode (TraceparentFromContext tid sid sampled) = some (tid, sid, sampled) := by
  have e : TraceparentFromContext tid sid sampled =
      0 :: (tid ++ (sid ++ [if sampled then 1 else 0])) := by
    simp [TraceparentFromContext]
  refine ⟨by simp [e, h16, h8], by simp [e], ?_⟩
  rw [e]
  unfold traceparentDecode
  rw [if_pos ⟨by simp [h16, h8], rfl⟩]
  have hdrop16 : (tid ++ (sid ++ [if sampled then 1 else 0])).drop 16 =
      sid ++ [if sampled then 1 else 0] := List.drop_left' h16
  have hdrop24 : (tid ++ (sid ++ [if sampled then 1 else 0])).drop 24 =
      [if sampled then 1 else 0] := by
    rw [show (24 : Nat) = 16 + 8 from rfl, ← List.drop_drop, hdrop16, List.drop_left' h8]
  rw [List.tail_cons, List.take_left' h16, hdrop16, List.take_left' h8, hdrop24]
  cases sampled <;> rfl

/-- Witness for `C9_traceparent_roundtrip` at the repository's own test
vector: trace id `01 02 03 04` zero-padded to 16 bytes, span id
`05 06 07 08` zero-padded to 8 bytes, sampled. -/
theorem C9_traceparent_roundtrip_witness :
    (TraceparentFromContext [1, 2, 3, 4, 0, 0, 0, 0, 0, 0, 0, 0, 0, 0, 0, 0]
        [5, 6, 7, 8, 0, 0, 0, 0] true).length = 26 ∧
    TraceparentFromContext [1, 2, 3, 4, 0, 0, 0, 0, 0, 0, 0, 0, 0, 0, 0, 0]
        [5, 6, 7, 8, 0, 0, 0, 0] true =
      [0] ++ [1, 2, 3, 4, 0, 0, 0, 0, 0, 0, 0, 0, 0, 0, 0, 0] ++
        [5, 6, 7, 8, 0, 0, 0, 0] ++ [if true then 1 else 0] ∧
    traceparentDecode (TraceparentFromContext
        [1, 2, 3, 4, 0, 0, 0, 0, 0, 0, 0, 0, 0, 0, 0, 0] [5, 6, 7, 8, 0, 0, 0, 0] true) =
      some ([1, 2, 3, 4, 0, 0, 0, 0, 0, 0, 0, 0, 0, 0, 0, 0], [5, 6, 7, 8, 0, 0, 0, 0], true) :=
  C9_traceparent_roundtrip [1, 2, 3, 4, 0, 0, 0, 0, 0, 0, 0, 0, 0, 0, 0, 0]
    [5, 6, 7, 8, 0, 0, 0, 0] true (by decide) (by decide)

/-! ## Claim C8: the dispatcher (src/unnamed/part_018:44-48
`Listener.Handler`, invoked by `Listener.Serve` for every decoded
packet) -/

/-- `Listener.Handler`: `for _, h := range l.handlers { h.Handle(conn,
peer, pkt) }`.  The embedding returns the emitted invocation trace, in
call order: one `(handler, conn, peer, packet)` entry per call. -/
def listenerHandler {H C P K : Type} (handlers : List H) (conn : C) (peer : P) (pkt : K) :
    List (H × C × P × K) :=
  match handlers with
  | [] => []
  | h :: rest => (h, conn, peer, pkt) :: listenerHandler rest conn peer pkt

/-- C8 (confirmed): for one decoded packet, the dispatch loop invokes
the registered handlers exactly in registration order (the trace of
invoked handlers is the registration list, so each registered handler
is invoked exactly once, with multiplicity preserved), and every
invocation receives the same `(conn, peer, packet)` triple. -/
theorem C8_dispatch_once_in_order {H C P K : Type} [DecidableEq H]
    (handlers : List H) (conn : C) (peer : P) (pkt : K) :
    (listenerHandler handlers conn peer pkt).map Prod.fst = handlers ∧
    (∀ x : H, ((listenerHandler handlers conn peer pkt).map Prod.fst).count x =
      handlers.count x) ∧
    ∀ inv ∈ listenerHandler handlers conn peer pkt, inv.2 = (conn, peer, pkt) := by
  induction handlers with
  | nil =>
      refine ⟨rfl, fun x => rfl, ?_⟩
      intro inv h
      cases h
  | cons h rest ih =>
      have h1 : (listenerHandler (h :: rest) conn peer pkt).map Prod.fst = h :: rest := by
        simp only [listenerHandler, List.map_cons, ih.1]
      refine ⟨h1, fun x => by rw [h1], ?_⟩
      intro inv hm
      rcases List.mem_cons.mp hm with hm | hm
      · rw [hm]
      · exact ih.2.2 inv hm

/-- Witness for `C8_dispatch_once_in_order` with two handlers `10, 20`
and the concrete triple `(1, 2, 3)`, instantiating the per-invocation
part at the first recorded invocation. -/
theorem C8_dispatch_once_in_order_witness :
    (listenerHandler [10, 20] 1 2 3).map Prod.fst = [10, 20] ∧
    ((listenerHandler [10, 20] 1 2 3).map Prod.fst).count 10 = [10, 20].count 10 ∧
    ((10, 1, 2, 3) : Nat × Nat × Nat × Nat).2 = (1, 2, 3) :=
  ⟨(C8_dispatch_once_in_order [10, 20] 1 2 3).1,
   (C8_dispatch_once_in_order [10, 20] 1 2 3).2.1 10,
   (C8_dispatch_once_in_order [10, 20] 1 2 3).2.2 (10, 1, 2, 3) (by decide)⟩

/-! ## MAC rendering and the two Raspberry Pi detectors -/

/-- The lowercase hex digits used by `net.HardwareAddr.String()`. -/
def hexChars : Str := str "0123456789abcdef"

/-- Two lowercase hex digits of one byte. -/
def byteHex (b : Byte) : Str :=
  [hexChars.getD (b / 16 % 16) '0', hexChars.getD (b % 16) '0']

/-- Model of `net.HardwareAddr.String()`: colon-separated lowercase hex
pairs; empty string for an empty address. -/
def macString (mac : List Byte) : Str :=
  List.intercalate (str ":") (mac.map byteHex)

/-- `strings.ToLower`. -/
def strToLower (s : Str) : Str := s.map Char.toLower

/-- rpi.IsRPI (src/unnamed/part_008:13-26): a `switch` that compares the
WHOLE lowercased MAC string for equality with the four 3-byte OUI
strings. -/
def rpi_IsRPI (hw : List Byte) : Bool :=
  let h := strToLower (macString hw)
  h == str "28:cd:c1" || h == str "b8:27:eb" || h == str "dc:a6:32" || h == str "e4:5f:01"

/-- netboot.isRPI (the netboot package variant bundled with
src/netboot/arch_test.go): a PREFIX test of the lowercased MAC string
against the same four OUIs. -/
def netboot_isRPI (hw : List Byte) : Bool :=
  let h := strToLower (macString hw)
  List.isPrefixOf (str "28:cd:c1") h || List.isPrefixOf (str "b8:27:eb") h ||
    List.isPrefixOf (str "dc:a6:32") h || List.isPrefixOf (str "e4:5f:01") h

/-! ## dhcpv4.Options sub-option maps (option 43 blobs) -/

/-- A `dhcpv4.Options` map, kept sorted by option code the way
`Options.ToBytes` serializes it. -/
abbrev Opts := List (Nat × List Byte)

/-- Map update (`opts[k] = v`), keeping codes sorted ascending. -/
def optInsert (k : Nat) (v : List Byte) : Opts → Opts
  | [] => [(k, v)]
  | (q, w) :: rest =>
      if k < q then (k, v) :: (q, w) :: rest
      else if k = q then (k, v) :: rest
      else (q, w) :: optInsert k v rest

/-- Map lookup. -/
def optLookup (k : Nat) : Opts → Option (List Byte)
  | [] => none
  | (q, w) :: rest => if k = q then some w else optLookup k rest

/-- Sub-option 9 payload `\x00\x00\x11Raspberry Pi Boot`
(`hex 00001152617370626572727920506920426f6f74`). -/
def rpiSubOpt9 : List Byte := [0x00, 0x00, 0x11] ++ (str "Raspberry Pi Boot").map Char.toNat

/-- Sub-option 10 payload `hex 00505845` (`"\0PXE"`). -/
def rpiSubOpt10 : List Byte := [0x00, 0x50, 0x58, 0x45]

/-- rpi.AddVendorOpts / netboot.addVendorOpts: both set sub-options 9
and 10 of the option 43 map to the same byte sequences (one source
hex-decodes them, the other writes the string literal). -/
def addVendorOpts (opt43 : Opts) : Opts :=
  optInsert 10 rpiSubOpt10 (optInsert 9 rpiSubOpt9 opt43)

/-- netboot.Conf.setOpt43 (src/netboot/netboot.go:48-65): the option 43
map it serializes into the reply, given the traceparent bytes and the
record's VLAN. -/
def netbootSetOpt43 (mac : List Byte) (tp26 : List Byte) (vlan : Str) : Opts :=
  let pxe := optInsert 69 tp26 (optInsert 6 [8] [])
  let pxe := if !vlan.isEmpty then optInsert 116 (vlan.map Char.toNat) pxe else pxe
  if netboot_isRPI mac then addVendorOpts pxe else pxe

/-- The option 43 map built inside proxy.Handler.setNetworkBootOpts
(src/handler/proxy/proxy.go:314-322): sub-options 6 and 69, plus the
Raspberry Pi sub-options when `rpi.IsRPI` fires. -/
def proxyOpt43 (mac : List Byte) (tp26 : List Byte) : Opts :=
  let pxe := optInsert 69 tp26 (optInsert 6 [8] [])
  if rpi_IsRPI mac then addVendorOpts pxe else pxe

/-- C3 (code_bug): for the Raspberry Pi 4 MAC `dc:a6:32:01:02:03`,
`rpi.IsRPI` returns false — its `switch` compares the whole 17-character
MAC string for equality with a 3-byte OUI string, contradicting its own
doc comment ("contains a Raspberry Pi assigned prefix") — so the proxy
and reservation option 43 blobs omit sub-options 9 and 10; the netboot
package's prefix-matching `isRPI` classifies the same MAC as a
Raspberry Pi and its option 43 map carries the exact claimed payloads. -/
theorem C3_rpi_oui_not_detected :
    rpi_IsRPI [0xdc, 0xa6, 0x32, 0x01, 0x02, 0x03] = false ∧
    optLookup 9 (proxyOpt43 [0xdc, 0xa6, 0x32, 0x01, 0x02, 0x03] []) = none ∧
    optLookup 10 (proxyOpt43 [0xdc, 0xa6, 0x32, 0x01, 0x02, 0x03] []) = none ∧
    netboot_isRPI [0xdc, 0xa6, 0x32, 0x01, 0x02, 0x03] = true ∧
    optLookup 9 (netbootSetOpt43 [0xdc, 0xa6, 0x32, 0x01, 0x02, 0x03] [] []) =
      some rpiSubOpt9 ∧
    optLookup 10 (netbootSetOpt43 [0xdc, 0xa6, 0x32, 0x01, 0x02, 0x03] [] []) =
      some rpiSubOpt10 := by decide

/-! ## Architecture extraction and the arch-to-bootfile table -/

/-- Model of the external iana library's `Arch.String()` name table:
`true` when the code has a registered name (so `String()` does not
contain "unknown").  The theorems below only rely on its values at
code 0 (`INTEL_X86PC`, named) and code 255 (unregistered). -/
def ianaArchKnown (a : Nat) : Bool := decide (a ≤ 36)

/-- ArchToBootFile (src/unnamed/part_010, src/unnamed/part_012:45-63):
iana arch code to iPXE binary name.  Codes: 0-5 legacy/undionly, 6-9 and
15-16 EFI x86/ipxe.efi, 10-11, 18-19 and 41 ARM/snp.efi. -/
def ArchToBootFile (a : Nat) : Option Str :=
  if a = 0 ∨ a = 1 ∨ a = 2 ∨ a = 3 ∨ a = 4 ∨ a = 5 then some (str "undionly.kpxe")
  else if a = 6 ∨ a = 7 ∨ a = 8 ∨ a = 9 ∨ a = 15 ∨ a = 16 then some (str "ipxe.efi")
  else if a = 10 ∨ a = 11 ∨ a = 18 ∨ a = 19 ∨ a = 41 then some (str "snp.efi")
  else none

/-- reservation.arch (src/unnamed/part_012:197-220): first decoded
option 93 code with a registered iana name, else 255. -/
def res_arch (pkt : Packet) : Nat :=
  let fwt := pkt.opt93.getD []
  if fwt.isEmpty then 255
  else match fwt.find? ianaArchKnown with
       | some a => a
       | none => 255

/-- option.GetArch (src/unnamed/part_010): as `res_arch` but with the
`rpi.IsRPI` override to code 41 between the emptiness check and the
name scan. -/
def option_GetArch (pkt : Packet) : Nat :=
  let fwt := pkt.opt93.getD []
  if fwt.isEmpty then 255
  else if rpi_IsRPI pkt.mac then 41
  else match fwt.find? ianaArchKnown with
       | some a => a
       | none => 255

/-! ## Backend records and the reply under construction -/

/-- data.DHCP: the backend's answer for one MAC.  `Option` fields model
zero `netaddr.IP` values (`none` = zero/absent). -/
structure DhcpRecord where
  mac : List Byte := []
  ip : Option IP := none
  subnetMask : List Byte := []
  gateway : Option IP := none
  nameServers : List IP := []
  hostname : Str := []
  domainName : Str := []
  broadcast : Option IP := none
  ntp : List IP := []
  leaseTime : Nat := 0
  domainSearch : List Str := []
deriving DecidableEq, Repr

/-- data.Netboot: netboot permission, per-host script override, VLAN. -/
structure NetbootRecord where
  allowNetboot : Bool := false
  ipxeScriptURL : Option URL := none
  vlan : Str := []
deriving DecidableEq, Repr

/-- The projections of the `dhcpv4.DHCPv4` reply under construction
that this code base writes.  A fresh `NewReplyFromRequest` reply copies
the request `chaddr` and leaves everything else zero/absent. -/
structure Reply where
  messageType : MessageType := .noneType
  chaddr : List Byte := []
  yiaddr : IP := [0, 0, 0, 0]
  serverIPAddr : IP := [0, 0, 0, 0]
  bootFileName : Str := []
  serverHostName : Str := []
  opt54 : Option IP := none
  opt60 : Option Str := none
  opt43 : Option Opts := none
  opt97 : Option (List Byte) := none
  opt77 : Option Str := none
  mask : List Byte := []
  router : Option IP := none
  dns : List IP := []
  hostname : Option Str := none
  domainName : Option Str := none
  broadcast : Option IP := none
  ntp : List IP := []
  lease : Option Nat := none
  domainSearch : List Str := []
deriving DecidableEq, Repr

/-- data.DHCP.ToDHCPMods (src/unnamed/part_016:38-73): apply the
record's non-zero fields to the reply.  The Go function returns a list
of guarded single-field modifiers applied in order; as every modifier
writes a distinct reply field, the list is embedded as one conditional
update per field. -/
def toDHCPMods (rec : DhcpRecord) (r : Reply) : Reply :=
  { r with
    chaddr := rec.mac
    lease := some rec.leaseTime
    yiaddr := match rec.ip with | some ip => ip | none => r.yiaddr
    dns := if !rec.nameServers.isEmpty then rec.nameServers else r.dns
    domainSearch := if !rec.domainSearch.isEmpty then rec.domainSearch else r.domainSearch
    ntp := if !rec.ntp.isEmpty then rec.ntp else r.ntp
    broadcast := match rec.broadcast with | some b => some b | none => r.broadcast
    domainName := if !rec.domainName.isEmpty then some rec.domainName else r.domainName
    hostname := if !rec.hostname.isEmpty then some rec.hostname else r.hostname
    mask := if !rec.subnetMask.isEmpty then rec.subnetMask else r.mask
    router := match rec.gateway with | some g => some g | none => r.router }

/-! ## Reservation generation A (src/unnamed/part_012:122-194):
setNetworkBootOpts with its own bootfileAndNextServer -/

/-- reservation.Handler.bootfileAndNextServer
(src/unnamed/part_012:164-194).  In the Tinkerbell/custom branch
`nextServer` is never assigned and stays nil; the HTTPClient branch
parses `http.Host` whole (no colon split in this generation); nil
`http` is a dereference panic (`none`). -/
def res_bootfileAndNextServer (netbootUserClass : Str) (otelEnabled : Bool)
    (uClass opt60 bin : Str) (tftp : AddrPort) (http iscript : Option URL)
    (tp : Str) : Option (Str × IP) :=
  let bin := if otelEnabled && !tp.isEmpty then bin ++ str "-" ++ tp else bin
  if uClass == str "Tinkerbell" || (!netbootUserClass.isEmpty && uClass == netbootUserClass) then
    some (match iscript with
          | none => str "/no-ipxe-script-defined"
          | some u => u.render, [])
  else if opt60 == str "HTTPClient" then
    match http with
    | none => none
    | some u => some (u.render ++ str "/" ++ bin, (parseIP u.host).getD [0, 0, 0, 0])
  else if uClass == str "iPXE" then
    some (str "tftp://" ++ addrPortString tftp ++ str "/" ++ bin, addrPortIP tftp)
  else
    some (bin, addrPortIP tftp)

/-- reservation.Handler.setNetworkBootOpts (src/unnamed/part_012:122-159)
applied to the reply `d`: echo option 60 only when the client's option
60 begins with HTTPClient, preset `/netboot-not-allowed` and siaddr
0.0.0.0, and when the record allows netboot resolve the bootfile, next
server and option 43 sub-options 6 and 69. -/
def res_setNetworkBootOpts (netbootUserClass : Str) (otelEnabled : Bool)
    (tftp : AddrPort) (http iscript0 : Option URL) (m : Packet) (n : NetbootRecord)
    (tp26 : List Byte) (tp : Str) (d : Reply) : Option Reply :=
  let upd := match m.opt60 with
    | some v => List.isPrefixOf (str "HTTPClient") v
    | none => false
  let d := if upd then { d with opt60 := some (str "HTTPClient") } else d
  let opt60s : Str := if upd then str "HTTPClient" else []
  let d := { d with bootFileName := str "/netboot-not-allowed", serverIPAddr := [0, 0, 0, 0] }
  if n.allowNetboot then
    match ArchToBootFile (res_arch m) with
    | none => some d
    | some bin =>
        let uClass := m.opt77.getD []
        let iscript := match n.ipxeScriptURL with
          | some u => some u
          | none => iscript0
        match res_bootfileAndNextServer netbootUserClass otelEnabled uClass opt60s bin
            tftp http iscript tp with
        | none => none
        | some (bf, ns) =>
            some { d with
              bootFileName := bf
              serverIPAddr := ns
              opt43 := some (optInsert 69 tp26 (optInsert 6 [8] [])) }
  else some d

/-! ## option package (src/option/option.go, src/option/modifier.go):
the modifiers applied by reservation generation B -/

/-- option.SetOpt60 / netboot.SetOpt60 (src/netboot/netboot.go:239-248):
reply option 60 is `HTTPClient` when the client value begins with
`HTTPClient`, else `PXEClient`. -/
def SetOpt60 (opt60FromClient : Str) (d : Reply) : Reply :=
  let o := if List.isPrefixOf (str "HTTPClient") opt60FromClient
           then str "HTTPClient" else str "PXEClient"
  { d with opt60 := some o }

/-- option.GetClientType / netboot.GetClientType. -/
def GetClientType (opt60 : Str) : Str :=
  if List.isPrefixOf (str "HTTPClient") opt60 then str "HTTPClient" else str "PXEClient"

/-- option.BootfileAndNextServer (src/option/option.go): as the netboot
variant but the Tinkerbell/custom branch leaves the next server at the
tftp address (no 127.0.0.1 fallback, no nil-script dereference). -/
def option_BootfileAndNextServer (pktUserClass customUserClass opt60 bin : Str)
    (tftp : AddrPort) (ipxe iscript : Option URL) (otelEnabled : Bool) (tp : Str) :
    Option (Str × IP) :=
  let bin := if otelEnabled && !tp.isEmpty then bin ++ str "-" ++ tp else bin
  let nextServer := addrPortIP tftp
  if tinkerbellGuard pktUserClass customUserClass then
    some (match iscript with
          | none => str "/no-ipxe-script-defined"
          | some u => u.render, nextServer)
  else if opt60 == str "HTTPClient" then
    match ipxe with
    | none => none
    | some u =>
        some (u.render ++ str "/" ++ bin, (parseIP (firstColonField u.host)).getD [0, 0, 0, 0])
  else if pktUserClass == str "iPXE" then
    some (str "tftp://" ++ addrPortString tftp ++ str "/" ++ bin, nextServer)
  else
    some (bin, nextServer)

/-- option.Conf (src/option/modifier.go): server configuration for the
netboot modifiers. -/
structure Conf where
  ipxeScriptURL : Option URL := none
  userClass : Str := []
  ipxeBinServerTFTP : AddrPort := ⟨none, 0⟩
  ipxeBinServerHTTP : Option URL := none
  otelEnabled : Bool := false
deriving DecidableEq, Repr

/-- option.Conf.setOpt43 (src/option/modifier.go): sub-options 6, 69,
the VLAN (116) and the Raspberry Pi sub-options.  The option package's
own `isRPI` source file is absent from src; it is modelled from the
spec's §4.2 prefix rule, which the netboot package's bundled `isRPI`
implements verbatim. -/
def conf_setOpt43 (mac : List Byte) (vlan : Str) (tp26 : List Byte) (d : Reply) : Reply :=
  let pxe := optInsert 69 tp26 (optInsert 6 [8] [])
  let pxe := if !vlan.isEmpty then optInsert 116 (vlan.map Char.toNat) pxe else pxe
  let pxe := if netboot_isRPI mac then addVendorOpts pxe else pxe
  { d with opt43 := some pxe }

/-- option.Conf.setBootfileAndServerIP (src/option/modifier.go): look
up the binary for the client architecture (logging and leaving the
reply untouched when absent), then resolve bootfile and siaddr. -/
def conf_setBootfileAndServerIP (c : Conf) (m : Packet) (n : NetbootRecord)
    (tp : Str) (d : Reply) : Option Reply :=
  match ArchToBootFile (option_GetArch m) with
  | none => some d
  | some bin =>
      let uClass := m.opt77.getD []
      let iscript := match n.ipxeScriptURL with
        | some u => some u
        | none => c.ipxeScriptURL
      match option_BootfileAndNextServer uClass c.userClass
          (GetClientType (classIdentifier m)) bin c.ipxeBinServerTFTP
          c.ipxeBinServerHTTP iscript c.otelEnabled tp with
      | none => none
      | some (bf, ns) => some { d with bootFileName := bf, serverIPAddr := ns }

/-- option.Conf.SetNetworkBootOpts (src/option/modifier.go): the
modifier list `[SetOpt60, setOpt43, setBootfileAndServerIP,
WithUserClass "Tinkerbell"]` applied in order to the reply. -/
def conf_SetNetworkBootOpts (c : Conf) (m : Packet) (n : NetbootRecord)
    (tp26 : List Byte) (tp : Str) (d : Reply) : Option Reply :=
  let d := SetOpt60 (classIdentifier m) d
  let d := conf_setOpt43 m.mac n.vlan tp26 d
  match conf_setBootfileAndServerIP c m n tp d with
  | none => none
  | some d => some { d with opt77 := some (str "Tinkerbell") }

/-! ## Reservation generation B (src/unnamed/part_013): Handle and
updateMsg with the DHCPEnabled gate -/

/-- The netboot part of the reservation/proxy Handler configuration. -/
structure NetbootCfg where
  ipxeBinServerTFTP : AddrPort := ⟨none, 0⟩
  ipxeBinServerHTTP : Option URL := none
  ipxeScriptURL : Option URL := none
  enabled : Bool := false
  userClass : Str := []
deriving DecidableEq, Repr

/-- reservation.Handler (src/unnamed/part_013:25-49). -/
structure P013Handler where
  ipAddr : IP := [0, 0, 0, 0]
  netboot : NetbootCfg := {}
  dhcpEnabled : Bool := false
  otelEnabled : Bool := false
deriving DecidableEq, Repr

/-- reservation.Handler.updateMsg (src/unnamed/part_013:191-223):
message type and option 54; the DHCP record fields when `DHCPEnabled`;
the option.Conf netboot modifiers only when netboot is enabled AND the
record allows netboot AND the packet classifies as a netboot client. -/
def updateMsg_p013 (h : P013Handler) (pkt : Packet) (rec : DhcpRecord)
    (n : NetbootRecord) (mt : MessageType) (tp26 : List Byte) (tp : Str) : Option Reply :=
  let r : Reply := { chaddr := pkt.mac }
  let r := { r with messageType := mt, opt54 := some h.ipAddr }
  let r := if h.dhcpEnabled then toDHCPMods rec r else r
  if h.netboot.enabled && n.allowNetboot then
    if (IsNetbootClient pkt).isNone then
      conf_SetNetworkBootOpts
        { ipxeScriptURL := h.netboot.ipxeScriptURL
          userClass := h.netboot.userClass
          ipxeBinServerTFTP := h.netboot.ipxeBinServerTFTP
          ipxeBinServerHTTP := h.netboot.ipxeBinServerHTTP
          otelEnabled := h.otelEnabled } pkt n tp26 tp r
    else some r
  else some r

/-- reservation.Handler.Handle (src/unnamed/part_013:92-160).  The
result is the datagram written to the connection: `none` means Handle
returns without calling `conn.WriteTo`. -/
def reservationHandle_p013 (h : P013Handler) (pkt : Option Packet)
    (backend : Except Str (DhcpRecord × NetbootRecord))
    (tp26 : List Byte) (tp : Str) : Option Reply :=
  match pkt with
  | none => none
  | some p =>
      match p.messageType with
      | .release => none
      | .decline => none
      | .nak => none
      | .inform => none
      | .discover =>
          match backend with
          | .error _ => none
          | .ok (rec, n) => updateMsg_p013 h p rec n .offer tp26 tp
      | .request =>
          match backend with
          | .error _ => none
          | .ok (rec, n) => updateMsg_p013 h p rec n .ack tp26 tp
      | _ => none

/-! ## Proxy handler (src/handler/proxy/proxy.go) -/

/-- proxy.Handler (src/handler/proxy/proxy.go:30-51). -/
structure ProxyHandler where
  ipAddr : IP := [0, 0, 0, 0]
  netboot : NetbootCfg := {}
  otelEnabled : Bool := false
deriving DecidableEq, Repr

/-- `net.IP.String()` on the values this code produces: `<nil>` for a
nil IP, dotted quad otherwise. -/
def netIPString (ip : IP) : Str :=
  if ip.isEmpty then str "<nil>" else ipDotted ip

/-- proxy.setOpt54And60AndSNAME (src/handler/proxy/proxy.go:657-669):
based on the given option 60 string, choose tftp or http for option
54/sname and echo `PXEClient`/`HTTPClient`; returns the updated reply
and the chosen client type. -/
def setOpt54And60AndSNAME (opt60FromClient : Str) (tftp http : IP) (d : Reply) :
    Reply × Str :=
  let isHttp := List.isPrefixOf (str "HTTPClient") opt60FromClient
  let opt54 := if isHttp then http else tftp
  let o60 := if isHttp then str "HTTPClient" else str "PXEClient"
  ({ d with opt60 := some o60, serverHostName := netIPString opt54 }, o60)

/-- proxy.Handler.bootfileAndNextServer (src/handler/proxy/proxy.go:334-366):
the Tinkerbell/custom branch keeps the tftp address as next server. -/
def proxy_bootfileAndNextServer (netbootUserClass : Str) (otelEnabled : Bool)
    (uClass opt60 bin : Str) (tftp : AddrPort) (ipxe iscript : Option URL)
    (tp : Str) : Option (Str × IP) :=
  let bin := if otelEnabled && !tp.isEmpty then bin ++ str "-" ++ tp else bin
  if uClass == str "Tinkerbell" || (!netbootUserClass.isEmpty && uClass == netbootUserClass) then
    some (match iscript with
          | none => str "/no-ipxe-script-defined"
          | some u => u.render, addrPortIP tftp)
  else if opt60 == str "HTTPClient" then
    match ipxe with
    | none => none
    | some u =>
        some (u.render ++ str "/" ++ bin, (parseIP (firstColonField u.host)).getD [0, 0, 0, 0])
  else if uClass == str "iPXE" then
    some (str "tftp://" ++ addrPortString tftp ++ str "/" ++ bin, addrPortIP tftp)
  else
    some (bin, addrPortIP tftp)

/-- proxy.arch (src/handler/proxy/proxy.go:377-402): as `res_arch` but
with the `rpi.IsRPI` override to code 41. -/
def proxy_arch (pkt : Packet) : Nat :=
  let fwt := pkt.opt93.getD []
  if fwt.isEmpty then 255
  else if rpi_IsRPI pkt.mac then 41
  else match fwt.find? ianaArchKnown with
       | some a => a
       | none => 255

/-- proxy.Handler.setNetworkBootOpts (src/handler/proxy/proxy.go:290-329).
Note the source passes the REPLY's class identifier (empty on a fresh
reply) to `setOpt54And60AndSNAME`, and dereferences
`h.Netboot.IPXEBinServerHTTP` unconditionally (nil http URL = panic =
`none`). -/
def proxySetNetworkBootOpts (h : ProxyHandler) (m : Packet) (n : NetbootRecord)
    (tp26 : List Byte) (tp : Str) (d : Reply) : Option Reply :=
  match h.netboot.ipxeBinServerHTTP with
  | none => none
  | some hu =>
      let pair := setOpt54And60AndSNAME (d.opt60.getD [])
        (addrPortIP h.netboot.ipxeBinServerTFTP) ((parseIP hu.host).getD []) d
      let d := { pair.1 with
        bootFileName := str "/netboot-not-allowed"
        serverIPAddr := [0, 0, 0, 0] }
      if n.allowNetboot then
        match ArchToBootFile (proxy_arch m) with
        | none => some d
        | some bin =>
            let uClass := m.opt77.getD []
            let iscript := match n.ipxeScriptURL with
              | some u => some u
              | none => h.netboot.ipxeScriptURL
            match proxy_bootfileAndNextServer h.netboot.userClass h.otelEnabled uClass
                pair.2 bin h.netboot.ipxeBinServerTFTP h.netboot.ipxeBinServerHTTP
                iscript tp with
            | none => none
            | some (bf, ns) =>
                some { d with
                  bootFileName := bf
                  serverIPAddr := ns
                  opt43 := some (proxyOpt43 m.mac tp26) }
      else some d

/-- proxy.Handler.updateMsg (src/handler/proxy/proxy.go:212-227):
message type, option 54, siaddr, the netboot options, and the option 97
mirror. -/
def proxyUpdateMsg (h : ProxyHandler) (pkt : Packet) (n : NetbootRecord)
    (mt : MessageType) (tp26 : List Byte) (tp : Str) : Option Reply :=
  let r : Reply := { chaddr := pkt.mac }
  let r := { r with messageType := mt, opt54 := some h.ipAddr, serverIPAddr := h.ipAddr }
  match proxySetNetworkBootOpts h pkt n tp26 tp r with
  | none => none
  | some r => some { r with opt97 := some (pkt.opt97.getD []) }

/-- proxy.Handler.handleMsg (src/handler/proxy/proxy.go:101-125):
netboot must be enabled, the backend read must succeed, the record must
allow netboot and the packet must classify as a netboot client. -/
def proxyHandleMsg (h : ProxyHandler) (pkt : Packet)
    (backend : Except Str NetbootRecord) (mt : MessageType)
    (tp26 : List Byte) (tp : Str) : Option Reply :=
  if !h.netboot.enabled then none
  else match backend with
    | .error _ => none
    | .ok n =>
        if n.allowNetboot then
          if (IsNetbootClient pkt).isNone then proxyUpdateMsg h pkt n mt tp26 tp
          else none
        else none

/-- proxy.Handler.Handle (src/handler/proxy/proxy.go:128-187): `none`
means Handle returns without calling `conn.WriteTo`. -/
def proxyHandle (h : ProxyHandler) (pkt : Option Packet)
    (backend : Except Str NetbootRecord) (tp26 : List Byte) (tp : Str) : Option Reply :=
  match pkt with
  | none => none
  | some p =>
      match p.messageType with
      | .discover => proxyHandleMsg h p backend .offer tp26 tp
      | .request => proxyHandleMsg h p backend .ack tp26 tp
      | .release => none
      | _ => none

/-! ## Claim C5: the option 60 echo -/

/-- The reservation setNetworkBootOpts modifier never writes option 60
after its opening echo step, so the reply's option 60 is `HTTPClient`
when the client's option 60 begins with `HTTPClient` and is otherwise
left untouched (in particular absent on a fresh reply). -/
theorem res_setNetworkBootOpts_opt60 (nuc : Str) (otel : Bool) (tftp : AddrPort)
    (http is0 : Option URL) (m : Packet) (n : NetbootRecord) (tp26 : List Byte)
    (tp : Str) (d r : Reply)
    (hres : res_setNetworkBootOpts nuc otel tftp http is0 m n tp26 tp d = some r) :
    r.opt60 = (match m.opt60 with
      | some v => if List.isPrefixOf (str "HTTPClient") v then some (str "HTTPClient")
                  else d.opt60
      | none => d.opt60) := by
  unfold res_setNetworkBootOpts at hres
  cases hm : m.opt60 with
  | none =>
      simp only [hm] at hres
      split at hres
      · split at hres
        · injection hres with h
          subst h
          rfl
        · split at hres
          · cases hres
          · injection hres with h
            subst h
            rfl
      · injection hres with h
        subst h
        rfl
  | some v =>
      simp only [hm] at hres
      by_cases hv : List.isPrefixOf (str "HTTPClient") v = true <;>
        simp only [hv, if_true, Bool.false_eq_true, if_false] at hres ⊢ <;>
        (split at hres
         · split at hres
           · injection hres with h
             subst h
             rfl
           · split at hres
             · cases hres
             · injection hres with h
               subst h
               rfl
         · injection hres with h
           subst h
           rfl)

/-- proxy.Handler.setNetworkBootOpts consults the class identifier of
the reply it is handed (proxy.go:297 passes `d.ClassIdentifier()` to
`setOpt54And60AndSNAME`): when that reply carries no option 60, the
echo decision runs on the empty string and always picks `PXEClient`,
whatever the client sent. -/
theorem proxySetNetworkBootOpts_opt60 (h : ProxyHandler) (m : Packet) (n : NetbootRecord)
    (tp26 : List Byte) (tp : Str) (d r : Reply) (hd : d.opt60 = none)
    (hres : proxySetNetworkBootOpts h m n tp26 tp d = some r) :
    r.opt60 = some (str "PXEClient") := by
  unfold proxySetNetworkBootOpts setOpt54And60AndSNAME at hres
  cases hh : h.netboot.ipxeBinServerHTTP with
  | none => rw [hh] at hres; cases hres
  | some hu =>
      rw [hh, hd] at hres
      have hpf : List.isPrefixOf (str "HTTPClient") (Option.getD none []) = false := by decide
      rw [hpf] at hres
      simp only [Bool.false_eq_true, if_false] at hres
      split at hres
      · split at hres
        · injection hres with h1
          subst h1
          rfl
        · split at hres
          · cases hres
          · injection hres with h1
            subst h1
            rfl
      · injection hres with h1
        subst h1
        rfl

/-- Every reply the proxy updateMsg emits carries option 60 exactly
`PXEClient`: the fresh `NewReplyFromRequest` reply has no option 60, so
the echo in `setNetworkBootOpts` always runs on the empty string. -/
theorem proxyUpdateMsg_opt60 (h : ProxyHandler) (pkt : Packet) (n : NetbootRecord)
    (mt : MessageType) (tp26 : List Byte) (tp : Str) (r : Reply)
    (hres : proxyUpdateMsg h pkt n mt tp26 tp = some r) :
    r.opt60 = some (str "PXEClient") := by
  unfold proxyUpdateMsg at hres
  dsimp only at hres
  split at hres
  · cases hres
  · rename_i r2 hp
    injection hres with h1
    subst h1
    exact proxySetNetworkBootOpts_opt60 h pkt n tp26 tp _ r2 rfl hp

/-- C5 (counterexample): a Reservation reply carrying netboot options
(option 43 present, arch resolved, netboot allowed) built for a client
whose option 60 is `PXEClient:...` has NO option 60 at all — not the
claimed `PXEClient`: the reservation modifier only sets option 60 in
the HTTPClient case. -/
theorem C5_reservation_opt60_counterexample :
    ((res_setNetworkBootOpts [] false ⟨some [192, 168, 6, 5], 69⟩ none none
        ⟨.discover, [0xde, 0xad, 0xbe, 0xef, 0, 1],
          some (str "PXEClient:Arch:00000:UNDI:002001"), none,
          some [0], some [1, 2, 1, 2, 1], some []⟩
        ⟨true, none, []⟩ [] [] {}).map Reply.opt60 = some none) ∧
    ((res_setNetworkBootOpts [] false ⟨some [192, 168, 6, 5], 69⟩ none none
        ⟨.discover, [0xde, 0xad, 0xbe, 0xef, 0, 1],
          some (str "PXEClient:Arch:00000:UNDI:002001"), none,
          some [0], some [1, 2, 1, 2, 1], some []⟩
        ⟨true, none, []⟩ [] [] {}).map (fun r => r.opt43.isSome) = some true) := by decide

/-- C5 (amended): `SetOpt60` (netboot/option packages) replies with
exactly `HTTPClient` when the client's option 60 begins with
`HTTPClient` and exactly `PXEClient` in every other case; the
reservation handler's own setNetworkBootOpts modifier instead sets
option 60 only in the HTTPClient case and otherwise leaves the reply's
option 60 unchanged (absent on a fresh reply); and the proxy handler's
updateMsg, which feeds the echo the class identifier of the reply under
construction (empty) rather than the client's, emits option 60
`PXEClient` on every reply it produces, even for HTTPClient clients. -/
theorem C5_opt60_echo :
    (∀ (s : Str) (d : Reply),
      (SetOpt60 s d).opt60 =
        some (if List.isPrefixOf (str "HTTPClient") s then str "HTTPClient"
              else str "PXEClient")) ∧
    (∀ (nuc : Str) (otel : Bool) (tftp : AddrPort) (http is0 : Option URL)
        (m : Packet) (n : NetbootRecord) (tp26 : List Byte) (tp : Str) (d r : Reply),
      res_setNetworkBootOpts nuc otel tftp http is0 m n tp26 tp d = some r →
      r.opt60 = (match m.opt60 with
        | some v => if List.isPrefixOf (str "HTTPClient") v then some (str "HTTPClient")
                    else d.opt60
        | none => d.opt60)) ∧
    (∀ (h : ProxyHandler) (pkt : Packet) (n : NetbootRecord) (mt : MessageType)
        (tp26 : List Byte) (tp : Str) (r : Reply),
      proxyUpdateMsg h pkt n mt tp26 tp = some r →
      r.opt60 = some (str "PXEClient")) :=
  ⟨fun _ _ => rfl, res_setNetworkBootOpts_opt60, proxyUpdateMsg_opt60⟩

/-- Witness for `C5_opt60_echo`: an `HTTPClient:Arch` client gets
`HTTPClient` from SetOpt60; for a concrete PXEClient packet the
reservation modifier leaves option 60 at the fresh reply's (absent)
value; and a proxy reply built for an `HTTPClient:Arch` client carries
`PXEClient`. -/
theorem C5_opt60_echo_witness :
    (SetOpt60 (str "HTTPClient:Arch") {}).opt60 =
      some (if List.isPrefixOf (str "HTTPClient") (str "HTTPClient:Arch")
            then str "HTTPClient" else str "PXEClient") ∧
    ((res_setNetworkBootOpts [] false ⟨none, 0⟩ none none
        ⟨.discover, [], some (str "PXEClient:Arch"), none, some [0], some [1], some []⟩
        ⟨false, none, []⟩ [] [] {}).getD {}).opt60 =
      (match (⟨.discover, [], some (str "PXEClient:Arch"), none,
              some [0], some [1], some []⟩ : Packet).opt60 with
       | some v => if List.isPrefixOf (str "HTTPClient") v then some (str "HTTPClient")
                   else ({} : Reply).opt60
       | none => ({} : Reply).opt60) ∧
    ((proxyUpdateMsg
        ⟨[10, 0, 0, 1],
          ⟨⟨some [192, 168, 6, 5], 69⟩,
            some ⟨str "localhost:8181", str "http://localhost:8181"⟩, none, true, []⟩,
          false⟩
        ⟨.discover, [], some (str "HTTPClient:Arch"), none, some [0], some [1], some []⟩
        ⟨false, none, []⟩ .offer [] []).getD {}).opt60 = some (str "PXEClient") :=
  ⟨C5_opt60_echo.1 (str "HTTPClient:Arch") {},
   C5_opt60_echo.2.1 [] false ⟨none, 0⟩ none none
     ⟨.discover, [], some (str "PXEClient:Arch"), none, some [0], some [1], some []⟩
     ⟨false, none, []⟩ [] [] {} _ (by rfl),
   C5_opt60_echo.2.2
     ⟨[10, 0, 0, 1],
       ⟨⟨some [192, 168, 6, 5], 69⟩,
         some ⟨str "localhost:8181", str "http://localhost:8181"⟩, none, true, []⟩,
       false⟩
     ⟨.discover, [], some (str "HTTPClient:Arch"), none, some [0], some [1], some []⟩
     ⟨false, none, []⟩ .offer [] [] _ (by rfl)⟩

/-! ## Claim C6: the Reservation reply when netboot is disallowed -/

/-- Generation A: with `allow = false` the reservation
setNetworkBootOpts modifier sets `/netboot-not-allowed` and siaddr
0.0.0.0 and leaves the DHCP address fields of the reply alone. -/
theorem res_setNetworkBootOpts_not_allowed (nuc : Str) (otel : Bool) (tftp : AddrPort)
    (http is0 : Option URL) (m : Packet) (n : NetbootRecord) (tp26 : List Byte)
    (tp : Str) (d : Reply) (hallow : n.allowNetboot = false) :
    ∃ r, res_setNetworkBootOpts nuc otel tftp http is0 m n tp26 tp d = some r ∧
      r.bootFileName = str "/netboot-not-allowed" ∧ r.serverIPAddr = [0, 0, 0, 0] ∧
      r.yiaddr = d.yiaddr ∧ r.mask = d.mask ∧ r.lease = d.lease ∧
      r.router = d.router ∧ r.dns = d.dns := by
  unfold res_setNetworkBootOpts
  rw [hallow]
  simp only [Bool.false_eq_true, if_false]
  cases hm : m.opt60 with
  | none => exact ⟨_, rfl, rfl, rfl, rfl, rfl, rfl, rfl, rfl⟩
  | some v =>
      by_cases hv : List.isPrefixOf (str "HTTPClient") v = true <;>
        simp only [hv, if_true, Bool.false_eq_true, if_false] <;>
        exact ⟨_, rfl, rfl, rfl, rfl, rfl, rfl, rfl, rfl⟩

/-- Generation B: with `allow = false` the part_013 updateMsg skips the
netboot modifiers entirely: the bootfile header stays EMPTY (not
`/netboot-not-allowed`), siaddr stays 0.0.0.0, and the DHCP record
fields are applied when DHCP serving is enabled. -/
theorem updateMsg_p013_not_allowed (h : P013Handler) (pkt : Packet) (rec : DhcpRecord)
    (n : NetbootRecord) (mt : MessageType) (tp26 : List Byte) (tp : Str)
    (hallow : n.allowNetboot = false) :
    ∃ r, updateMsg_p013 h pkt rec n mt tp26 tp = some r ∧
      r.bootFileName = [] ∧ r.serverIPAddr = [0, 0, 0, 0] ∧
      (h.dhcpEnabled = true →
        r.yiaddr = (match rec.ip with | some ip => ip | none => [0, 0, 0, 0]) ∧
        r.lease = some rec.leaseTime) := by
  unfold updateMsg_p013
  rw [hallow]
  simp only [Bool.and_false, Bool.false_eq_true, if_false]
  by_cases hd : h.dhcpEnabled = true
  · simp only [hd, if_true]
    exact ⟨_, rfl, rfl, rfl, fun _ => ⟨rfl, rfl⟩⟩
  · simp only [Bool.not_eq_true] at hd
    simp only [hd, Bool.false_eq_true, if_false]
    exact ⟨_, rfl, rfl, rfl, fun hdd => absurd hdd (by simp [hd])⟩

/-- C6 (counterexample): a Reservation (part_013 generation) reply for
a netboot-classified DISCOVER with `allow = false`, netboot enabled and
DHCP serving enabled has an EMPTY bootfile header, not the claimed
`/netboot-not-allowed`. -/
theorem C6_p013_updateMsg_counterexample :
    (updateMsg_p013
        ⟨[10, 0, 0, 1], ⟨⟨some [192, 168, 6, 5], 69⟩, none, none, true, []⟩, true, false⟩
        ⟨.discover, [0xde, 0xad, 0xbe, 0xef, 0, 1],
          some (str "PXEClient:Arch:00000:UNDI:002001"), none,
          some [0], some [1, 2, 1, 2, 1], some []⟩
        ⟨[0xde, 0xad, 0xbe, 0xef, 0, 1], some [192, 168, 2, 150], [255, 255, 255, 0],
          none, [], [], [], none, [], 86400, []⟩
        ⟨false, none, []⟩ .offer [] []).map Reply.bootFileName ≠
      some (str "/netboot-not-allowed") := by decide

/-- C6 (amended): with `allow = false`, the reservation
setNetworkBootOpts modifier (generation A, src/unnamed/part_012)
produces bootfile `/netboot-not-allowed` with siaddr 0.0.0.0 leaving
the DHCP address fields intact, while the part_013 updateMsg
(generation B) omits the netboot modifiers altogether, leaving the
bootfile header empty and siaddr 0.0.0.0 but still populating the DHCP
address options when DHCP serving is enabled. -/
theorem C6_netboot_disallowed_reply :
    (∀ (nuc : Str) (otel : Bool) (tftp : AddrPort) (http is0 : Option URL)
        (m : Packet) (n : NetbootRecord) (tp26 : List Byte) (tp : Str) (d : Reply),
      n.allowNetboot = false →
      (res_setNetworkBootOpts nuc otel tftp http is0 m n tp26 tp d).map
          Reply.bootFileName = some (str "/netboot-not-allowed") ∧
      (res_setNetworkBootOpts nuc otel tftp http is0 m n tp26 tp d).map
          Reply.serverIPAddr = some [0, 0, 0, 0] ∧
      (res_setNetworkBootOpts nuc otel tftp http is0 m n tp26 tp d).map
          Reply.yiaddr = some d.yiaddr ∧
      (res_setNetworkBootOpts nuc otel tftp http is0 m n tp26 tp d).map
          Reply.mask = some d.mask ∧
      (res_setNetworkBootOpts nuc otel tftp http is0 m n tp26 tp d).map
          Reply.lease = some d.lease) ∧
    (∀ (h : P013Handler) (pkt : Packet) (rec : DhcpRecord) (n : NetbootRecord)
        (mt : MessageType) (tp26 : List Byte) (tp : Str),
      n.allowNetboot = false →
      (updateMsg_p013 h pkt rec n mt tp26 tp).map Reply.bootFileName = some [] ∧
      (updateMsg_p013 h pkt rec n mt tp26 tp).map Reply.serverIPAddr =
        some [0, 0, 0, 0] ∧
      (h.dhcpEnabled = true →
        (updateMsg_p013 h pkt rec n mt tp26 tp).map Reply.yiaddr =
          some (match rec.ip with | some ip => ip | none => [0, 0, 0, 0]) ∧
        (updateMsg_p013 h pkt rec n mt tp26 tp).map Reply.lease =
          some (some rec.leaseTime))) := by
  constructor
  · intro nuc otel tftp http is0 m n tp26 tp d hallow
    obtain ⟨r, hr, h1, h2, h3, h4, h5, -, -⟩ :=
      res_setNetworkBootOpts_not_allowed nuc otel tftp http is0 m n tp26 tp d hallow
    rw [hr]
    exact ⟨by simp [h1], by simp [h2],
      by simp [h3], by simp [h4],
      by simp [h5]⟩
  · intro h pkt rec n mt tp26 tp hallow
    obtain ⟨r, hr, h1, h2, h3⟩ :=
      updateMsg_p013_not_allowed h pkt rec n mt tp26 tp hallow
    rw [hr]
    refine ⟨by simp [h1], by simp [h2], fun hd => ?_⟩
    obtain ⟨h4, h5⟩ := h3 hd
    exact ⟨by simp [h4], by simp [h5]⟩

/-- Witness for `C6_netboot_disallowed_reply` at concrete inputs with
`allow = false`. -/
theorem C6_netboot_disallowed_reply_witness :
    (res_setNetworkBootOpts [] false ⟨some [192, 168, 6, 5], 69⟩ none none
        ⟨.discover, [], some (str "PXEClient:Arch"), none, some [0], some [1], some []⟩
        ⟨false, none, []⟩ [] [] {}).map Reply.bootFileName =
      some (str "/netboot-not-allowed") ∧
    (updateMsg_p013
        ⟨[10, 0, 0, 1], ⟨⟨some [192, 168, 6, 5], 69⟩, none, none, true, []⟩, true, false⟩
        ⟨.discover, [], some (str "PXEClient:Arch"), none, some [0], some [1], some []⟩
        ⟨[], some [192, 168, 2, 150], [], none, [], [], [], none, [], 86400, []⟩
        ⟨false, none, []⟩ .offer [] []).map Reply.yiaddr =
      some (match (⟨[], some [192, 168, 2, 150], [], none, [], [], [], none, [],
          86400, []⟩ : DhcpRecord).ip with
        | some ip => ip
        | none => [0, 0, 0, 0]) :=
  ⟨(C6_netboot_disallowed_reply.1 [] false ⟨some [192, 168, 6, 5], 69⟩ none none
      ⟨.discover, [], some (str "PXEClient:Arch"), none, some [0], some [1], some []⟩
      ⟨false, none, []⟩ [] [] {} (by decide)).1,
   ((C6_netboot_disallowed_reply.2
      ⟨[10, 0, 0, 1], ⟨⟨some [192, 168, 6, 5], 69⟩, none, none, true, []⟩, true, false⟩
      ⟨.discover, [], some (str "PXEClient:Arch"), none, some [0], some [1], some []⟩
      ⟨[], some [192, 168, 2, 150], [], none, [], [], [], none, [], 86400, []⟩
      ⟨false, none, []⟩ .offer [] [] (by decide)).2.2 (by decide)).1⟩

/-! ## Claim C7: RELEASE, DECLINE, NAK produce no reply -/

/-- C7 (confirmed): for every packet whose message type is RELEASE,
DECLINE or NAK, the Reservation handler and the Proxy handler both
return without writing a datagram (`none`), for every handler
configuration and backend outcome. -/
theorem C7_release_decline_nak_no_reply (h13 : P013Handler) (hp : ProxyHandler)
    (p : Packet) (b1 : Except Str (DhcpRecord × NetbootRecord))
    (b2 : Except Str NetbootRecord) (tp26 : List Byte) (tp : Str)
    (hmt : p.messageType = .release ∨ p.messageType = .decline ∨ p.messageType = .nak) :
    reservationHandle_p013 h13 (some p) b1 tp26 tp = none ∧
    proxyHandle hp (some p) b2 tp26 tp = none := by
  rcases hmt with h | h | h <;>
    simp [reservationHandle_p013, proxyHandle, h]

/-- Witness for `C7_release_decline_nak_no_reply` at a concrete RELEASE
packet. -/
theorem C7_release_decline_nak_no_reply_witness :
    reservationHandle_p013 {} (some ⟨.release, [], none, none, none, none, none⟩)
      (.error []) [] [] = none ∧
    proxyHandle {} (some ⟨.release, [], none, none, none, none, none⟩)
      (.error []) [] [] = none :=
  C7_release_decline_nak_no_reply {} {} ⟨.release, [], none, none, none, none, none⟩
    (.error []) (.error []) [] [] (Or.inl rfl)

end DhcpProof
